import Mathlib

set_option maxHeartbeats 4000000
set_option maxRecDepth 8000

/-!
Verification development for the natural-language-to-OpenSearch query parser
(`src/nlq_parser.py`).  The parser is embedded shallowly: the normalized
utterance is a `List Char`, each Python regular expression used by the source
is translated into an explicit matcher with Python's `re.search` semantics
(leftmost position, greedy quantifiers, alternatives in listed order), and the
pipeline `parse -> _parse_to_dict -> json.dumps` becomes a total Lean function
producing the exact serialized output string.
-/

abbrev Str := List Char

/-- Python `\s` (ASCII range, as exercised by the parser). -/
def pyIsSpace (c : Char) : Bool :=
  c = ' ' || c = '\t' || c = '\n' || c = '\r' || c = '\x0b' || c = '\x0c'

/-- Python `\w`: `[a-zA-Z0-9_]`. -/
def wordChar (c : Char) : Bool := c.isAlpha || c.isDigit || c = '_'

/-- The service-name token class `[a-zA-Z0-9\-_]`. -/
def tokChar (c : Char) : Bool := c.isAlpha || c.isDigit || c = '-' || c = '_'

/-- The separator class `[-\s]` of the service patterns. -/
def sepChar (c : Char) : Bool := c = '-' || pyIsSpace c

/-- Python `str.lower` on the ASCII range used by the parser. -/
def pyToLower (c : Char) : Char := c.toLower

/-- Python `str.strip`. -/
def pyStrip (l : Str) : Str :=
  ((l.dropWhile pyIsSpace).reverse.dropWhile pyIsSpace).reverse

/-- `natural_query.lower().strip()` (nlq_parser.py line 157). -/
def normalizeQ (s : String) : Str := pyStrip (s.data.map pyToLower)

/-- Python `int` applied to a `\d+` capture. -/
def digitsToNat (l : Str) : Nat := l.foldl (fun a c => 10 * a + (c.toNat - 48)) 0

/-- Python substring test `needle in hay`. -/
def hasSub : Str → Str → Bool
  | kw, [] => kw.isEmpty
  | kw, c :: t => kw.isPrefixOf (c :: t) || hasSub kw t

/-- One atom of the sequential regular expressions used by the source:
a literal, an alternation of literals, a greedy `class+`, an optional
literal, or a `\b` word boundary.  A `true` flag marks a capturing group. -/
inductive Atom where
  | lit : Str → Atom
  | litAlt : Bool → List Str → Atom
  | cls : Bool → (Char → Bool) → Atom
  | opt : Str → Atom
  | wordB : Atom

/-- Last character of `consumed` if nonempty, else the previous character. -/
def lastCh (prev : Option Char) (consumed : Str) : Option Char :=
  match consumed.getLast? with
  | some c => some c
  | none => prev

def isWordOpt : Option Char → Bool
  | some c => wordChar c
  | none => false

/-- Match a sequence of atoms at the start of `l`; `prev` is the character
just before `l` in the scanned string (for `\b`).  Returns the number of
consumed characters and the captured groups in order.  Greedy `class+`
atoms never backtrack, which coincides with Python's behaviour for every
pattern below (each `class+` is followed by a disjoint class, a literal
starting outside the class, a word boundary, or nothing). -/
def matchAtoms : List Atom → Option Char → Str → Option (Nat × List Str)
  | [], _, _ => some (0, [])
  | Atom.lit s :: rest, prev, l =>
    if s.isPrefixOf l then
      (matchAtoms rest (lastCh prev s) (l.drop s.length)).map
        (fun r => (s.length + r.1, r.2))
    else none
  | Atom.litAlt cap ss :: rest, prev, l =>
    match ss.find? (fun a => a.isPrefixOf l) with
    | some a =>
      (matchAtoms rest (lastCh prev a) (l.drop a.length)).map
        (fun r => (a.length + r.1, if cap then a :: r.2 else r.2))
    | none => none
  | Atom.cls cap q :: rest, prev, l =>
    let run := l.takeWhile q
    if run.length = 0 then none
    else
      (matchAtoms rest (lastCh prev run) (l.drop run.length)).map
        (fun r => (run.length + r.1, if cap then run :: r.2 else r.2))
  | Atom.opt s :: rest, prev, l =>
    if s.isPrefixOf l then
      match matchAtoms rest (lastCh prev s) (l.drop s.length) with
      | some r => some (s.length + r.1, r.2)
      | none => matchAtoms rest prev l
    else matchAtoms rest prev l
  | Atom.wordB :: rest, prev, l =>
    if isWordOpt prev != isWordOpt l.head? then matchAtoms rest prev l else none

/-- Python `re.search`: try each start position from the left. -/
def searchFrom (ats : List Atom) : Option Char → Str → Option (Nat × List Str)
  | prev, [] => matchAtoms ats prev []
  | prev, c :: t =>
    match matchAtoms ats prev (c :: t) with
    | some r => some r
    | none => searchFrom ats (some c) t

/-- Python `re.sub(pattern, '', s)` driven by a match-at-position function
`f` (which receives the previous character and the rest of the string and
returns the length of a match at that position, if any).  The first `Nat`
argument is the number of characters of a previous match still to skip. -/
def subGo (f : Option Char → Str → Option Nat) : Nat → Option Char → Str → Str
  | _, _, [] => []
  | Nat.succ k, _, c :: t => subGo f k (some c) t
  | 0, prev, c :: t =>
    match f prev (c :: t) with
    | some (Nat.succ n) => subGo f n (some c) t
    | _ => c :: subGo f 0 (some c) t

/-- The `re.findall(r'\b[a-zA-Z]+\b', s)` pattern. -/
def wordPat : List Atom := [Atom.wordB, Atom.cls true Char.isAlpha, Atom.wordB]

/-- Python `re.findall(r'\b[a-zA-Z]+\b', s)`. -/
def findWords : Nat → Option Char → Str → List Str
  | Nat.succ k, _, c :: t => findWords k (some c) t
  | _, _, [] => []
  | 0, prev, c :: t =>
    match matchAtoms wordPat prev (c :: t) with
    | some (Nat.succ n, caps) => caps.headD [] :: findWords n (some c) t
    | _ => findWords 0 (some c) t

/-- Generic leftmost scan for the bespoke (backtracking) service matchers. -/
def scanFirst {α : Type} (f : Str → Option α) : Str → Option α
  | [] => f []
  | c :: t =>
    match f (c :: t) with
    | some r => some r
    | none => scanFirst f t

def serviceLit : Str := ("service").data

/-- Backtracking tail `[-\s]*service` of the service patterns: try separator
lengths from `m` down to `0`; on success return separator length + 7. -/
def trySepAux : Nat → Str → Option Nat
  | 0, r => if serviceLit.isPrefixOf r then some 7 else none
  | Nat.succ m, r =>
    if serviceLit.isPrefixOf (r.drop (m + 1)) then some (m + 1 + 7) else trySepAux m r

def trySep (r : Str) : Option Nat := trySepAux (r.takeWhile sepChar).length r

/-- Backtracking group `([a-zA-Z0-9\-_]+)` of the service patterns: try group
lengths from `k` down to `1`, preferring longer (Python greedy `+`). -/
def tryGroup : Nat → Str → Option (Str × Nat)
  | 0, _ => none
  | Nat.succ k, l =>
    match trySep (l.drop (k + 1)) with
    | some m => some (l.take (k + 1), k + 1 + m)
    | none => tryGroup k l

/-- Match `([a-zA-Z0-9\-_]+)[-\s]*service` at the start of `l`, returning the
captured group and the total number of consumed characters. -/
def svcCore (l : Str) : Option (Str × Nat) := tryGroup (l.takeWhile tokChar).length l

/-- Match `for\s+([a-zA-Z0-9\-_]+)[-\s]*service` at the start of `l`. -/
def svcP1At (l : Str) : Option (Str × Nat) :=
  if ("for").data.isPrefixOf l then
    let r := l.drop 3
    let sp := (r.takeWhile pyIsSpace).length
    if sp = 0 then none
    else (svcCore (r.drop sp)).map (fun g => (g.1, 3 + sp + g.2))
  else none

/-- Match `in\s+([a-zA-Z0-9\-_]+)[-\s]*service` at the start of `l`. -/
def svcP2At (l : Str) : Option (Str × Nat) :=
  if ("in").data.isPrefixOf l then
    let r := l.drop 2
    let sp := (r.takeWhile pyIsSpace).length
    if sp = 0 then none
    else (svcCore (r.drop sp)).map (fun g => (g.1, 2 + sp + g.2))
  else none

/-- Match `service\s+([a-zA-Z0-9\-_]+)` at the start of `l`. -/
def svcP4At (l : Str) : Option (Str × Nat) :=
  if serviceLit.isPrefixOf l then
    let r := l.drop 7
    let sp := (r.takeWhile pyIsSpace).length
    if sp = 0 then none
    else
      let run := (r.drop sp).takeWhile tokChar
      if run.length = 0 then none else some (run, 7 + sp + run.length)
  else none

/-- `NLQParser._is_unsupported_query`: the fixed keyword list. -/
def unsupported_keywords : List Str :=
  [("create").data, ("delete").data, ("update").data, ("insert").data,
   ("put").data, ("post").data, ("mapping").data, ("mappings").data,
   ("index").data, ("reindex").data, ("bulk").data, ("scroll").data,
   ("aggregate").data, ("aggregation").data, ("pipeline").data,
   ("template").data, ("settings").data, ("alias").data, ("aliases").data,
   ("snapshot").data, ("restore").data, ("backup").data]

/-- `NLQParser._is_unsupported_query`: the mutating-verb patterns. -/
def modify_patterns : List (List Atom) :=
  [[Atom.lit ("create").data, Atom.cls false pyIsSpace,
    Atom.litAlt false [("index").data, ("mapping").data]],
   [Atom.lit ("delete").data, Atom.cls false pyIsSpace,
    Atom.litAlt false [("index").data, ("document").data]],
   [Atom.lit ("update").data, Atom.cls false pyIsSpace,
    Atom.litAlt false [("mapping").data, ("document").data, ("settings").data]],
   [Atom.lit ("insert").data, Atom.cls false pyIsSpace],
   [Atom.lit ("add").data, Atom.cls false pyIsSpace,
    Atom.litAlt false [("field").data, ("mapping").data, ("alias").data]],
   [Atom.lit ("remove").data, Atom.cls false pyIsSpace,
    Atom.litAlt false [("field").data, ("mapping").data, ("alias").data]],
   [Atom.lit ("modify").data, Atom.cls false pyIsSpace],
   [Atom.lit ("change").data, Atom.cls false pyIsSpace,
    Atom.litAlt false [("mapping").data, ("settings").data]]]

/-- `NLQParser._is_unsupported_query`. -/
def is_unsupported_query (q : Str) : Bool :=
  unsupported_keywords.any (fun kw => hasSub kw q) ||
    modify_patterns.any (fun p => (searchFrom p none q).isSome)

/-- `NLQParser._is_cluster_query`. -/
def cluster_keywords : List Str :=
  [("cluster health").data, ("cluster status").data, ("node").data, ("shard").data]

def is_cluster_query (q : Str) : Bool :=
  cluster_keywords.any (fun kw => hasSub kw q)

/-- `NLQParser._is_cat_query`: the word-boundary patterns. -/
def cat_patterns : List (List Atom) :=
  [[Atom.wordB, Atom.lit ("list").data, Atom.cls false pyIsSpace,
    Atom.lit ("indices").data, Atom.wordB],
   [Atom.wordB, Atom.lit ("show").data, Atom.cls false pyIsSpace,
    Atom.lit ("indices").data, Atom.wordB],
   [Atom.wordB, Atom.lit ("list").data, Atom.cls false pyIsSpace,
    Atom.lit ("nodes").data, Atom.wordB],
   [Atom.wordB, Atom.lit ("show").data, Atom.cls false pyIsSpace,
    Atom.lit ("nodes").data, Atom.wordB],
   [Atom.wordB, Atom.lit ("list").data, Atom.cls false pyIsSpace,
    Atom.lit ("shards").data, Atom.wordB],
   [Atom.wordB, Atom.lit ("show").data, Atom.cls false pyIsSpace,
    Atom.lit ("shards").data, Atom.wordB],
   [Atom.wordB, Atom.lit ("cat").data, Atom.cls false pyIsSpace]]

def is_cat_query (q : Str) : Bool :=
  cat_patterns.any (fun p => (searchFrom p none q).isSome)

/-- One clause of the assembled query. -/
inductive Clause where
  | cmatch : Str → Str → Clause
  | crange : Str → Option Str → Clause
deriving DecidableEq

/-- The result of `NLQParser._parse_to_dict`: an error object, an
administrative api object, or a search query (an empty must list stands for
the `match_all` fallback). -/
inductive PResult where
  | err : String → PResult
  | api : String → PResult
  | search : Nat → List Clause → PResult
deriving DecidableEq

def errMsg : String := "Unsupported query. Please rephrase or check available APIs."
def clusterErrMsg : String :=
  "Unsupported cluster query. Please rephrase or check available APIs."
def catErrMsg : String :=
  "Unsupported cat query. Please rephrase or check available APIs."

/-- `NLQParser._handle_cluster_query`. -/
def handle_cluster_query (q : Str) : PResult :=
  if hasSub ("health").data q || hasSub ("status").data q then PResult.api "_cluster/health"
  else if hasSub ("node").data q then PResult.api "_cat/nodes?v"
  else PResult.err clusterErrMsg

/-- `NLQParser._handle_cat_query`. -/
def handle_cat_query (q : Str) : PResult :=
  if hasSub ("indices").data q || hasSub ("index").data q then PResult.api "_cat/indices?v"
  else if hasSub ("nodes").data q then PResult.api "_cat/nodes?v"
  else if hasSub ("shards").data q then PResult.api "_cat/shards?v"
  else PResult.err catErrMsg

/-- `NLQParser._extract_log_level`: scan list, with synonym canonicalization. -/
def log_levels : List Str :=
  [("error").data, ("errors").data, ("warn").data, ("warning").data,
   ("warnings").data, ("info").data, ("debug").data, ("trace").data]

def canonLevel (lv : Str) : Str :=
  if lv = ("errors").data then ("error").data
  else if lv = ("warn").data || lv = ("warning").data || lv = ("warnings").data then
    ("warn").data
  else lv

def extract_log_level (q : Str) : Option Str :=
  (log_levels.find? (fun lv => hasSub lv q)).map canonLevel

/-- `NLQParser._extract_service_name`: four patterns tried in order; a
captured group ending in a hyphen gets the literal suffix `service`. -/
def fixSvc (g : Str) : Str :=
  if g.getLast? = some '-' then g ++ serviceLit else g

def extract_service_name (q : Str) : Option Str :=
  match scanFirst svcP1At q with
  | some g => some (fixSvc g.1)
  | none =>
    match scanFirst svcP2At q with
    | some g => some (fixSvc g.1)
    | none =>
      match scanFirst svcCore q with
      | some g => some (fixSvc g.1)
      | none =>
        match scanFirst svcP4At q with
        | some g => some (fixSvc g.1)
        | none => none

/-- `OpenSearchQueryBuilder.build_time_range`: the `last X unit` pattern. -/
def time_units : List Str :=
  [("minute").data, ("minutes").data, ("min").data, ("hour").data,
   ("hours").data, ("hr").data, ("hrs").data, ("day").data, ("days").data,
   ("week").data, ("weeks").data, ("month").data, ("months").data,
   ("year").data, ("years").data]

def timePat : List Atom :=
  [Atom.lit ("last").data, Atom.cls false pyIsSpace, Atom.cls true Char.isDigit,
   Atom.cls false pyIsSpace, Atom.litAlt true time_units]

def time_map : List (Str × Str) :=
  [(("minute").data, ("m").data), (("minutes").data, ("m").data),
   (("min").data, ("m").data), (("hour").data, ("h").data),
   (("hours").data, ("h").data), (("hr").data, ("h").data),
   (("hrs").data, ("h").data), (("day").data, ("d").data),
   (("days").data, ("d").data), (("week").data, ("w").data),
   (("weeks").data, ("w").data), (("month").data, ("M").data),
   (("months").data, ("M").data), (("year").data, ("y").data),
   (("years").data, ("y").data)]

def todayClause : Clause := Clause.crange ("now/d").data none
def yesterdayClause : Clause := Clause.crange ("now-1d/d").data (some ("now/d").data)

/-- `OpenSearchQueryBuilder.build_time_range`.  The `time_map[unit]`
dictionary access is the one fallible operation of the pipeline and is
modelled as `Except` (a missing key would raise `KeyError`). -/
def build_time_range (q : Str) : Except String (Option Clause) :=
  match searchFrom timePat none (q.map pyToLower) with
  | some r =>
    match r.2 with
    | [amount, unit] =>
      match time_map.lookup unit with
      | some eu => Except.ok (some (Clause.crange (("now-").data ++ amount ++ eu) none))
      | none => Except.error "KeyError"
    | _ => Except.error "KeyError"
  | none =>
    if hasSub ("today").data (q.map pyToLower) then Except.ok (some todayClause)
    else if hasSub ("yesterday").data (q.map pyToLower) then Except.ok (some yesterdayClause)
    else Except.ok none

/-- `NLQParser._extract_search_terms`: the stop-word set. -/
def stop_words : List Str :=
  [("get").data, ("show").data, ("find").data, ("search").data, ("logs").data,
   ("log").data, ("details").data, ("of").data, ("in").data, ("for").data,
   ("last").data, ("minutes").data, ("minute").data, ("hours").data,
   ("hour").data, ("days").data, ("day").data, ("service").data,
   ("errors").data, ("error").data, ("warnings").data, ("warning").data,
   ("info").data, ("debug").data, ("trace").data, ("the").data, ("and").data,
   ("with").data, ("want").data, ("checkout").data, ("payment").data,
   ("user").data, ("auth").data, ("authentication").data, ("from").data,
   ("me").data, ("cluster").data, ("health").data, ("status").data,
   ("list").data, ("nodes").data, ("indices").data, ("shards").data,
   ("top").data, ("results").data, ("limit").data, ("first").data,
   ("today").data, ("yesterday").data, ("complex").data,
   ("unsupported").data, ("that").data, ("should").data, ("fail").data,
   ("query").data, ("api").data, ("to").data, ("a").data, ("an").data,
   ("is").data, ("are").data, ("was").data, ("were").data, ("be").data,
   ("been").data, ("being").data, ("have").data, ("has").data, ("had").data,
   ("do").data, ("does").data, ("did").data]

def fSvc1 (_ : Option Char) (l : Str) : Option Nat := (svcP1At l).map (fun g => g.2)
def fSvc2 (_ : Option Char) (l : Str) : Option Nat := (svcP2At l).map (fun g => g.2)
def fSvc3 (_ : Option Char) (l : Str) : Option Nat := (svcCore l).map (fun g => g.2)

/-- The `re.sub` pattern `last\s+\d+\s+\w+`. -/
def timeSubPat : List Atom :=
  [Atom.lit ("last").data, Atom.cls false pyIsSpace, Atom.cls false Char.isDigit,
   Atom.cls false pyIsSpace, Atom.cls false wordChar]

def fTimeLast (prev : Option Char) (l : Str) : Option Nat :=
  (matchAtoms timeSubPat prev l).map (fun r => r.1)

def fToday (_ : Option Char) (l : Str) : Option Nat :=
  if ("today").data.isPrefixOf l then some 5 else none

def fYesterday (_ : Option Char) (l : Str) : Option Nat :=
  if ("yesterday").data.isPrefixOf l then some 9 else none

/-- Match-at-position function of the level-word sub pattern
`\b(error|errors|warn|warning|warnings|info|debug|trace)\b`: the first
alternative that matches as a prefix and is followed by a word boundary
(Python backtracks over the alternation when the trailing `\b` fails). -/
def levelSubAt (prev : Option Char) (l : Str) : Option Nat :=
  if isWordOpt prev then none
  else
    match log_levels.find?
        (fun a => a.isPrefixOf l && !(isWordOpt (l.drop a.length).head?)) with
    | some a => some a.length
    | none => none

/-- `NLQParser._extract_search_terms`. -/
def extract_search_terms (q : Str) : List Str :=
  let t0 := q.map pyToLower
  let t1 := subGo fSvc1 0 none t0
  let t2 := subGo fSvc2 0 none t1
  let t3 := subGo fSvc3 0 none t2
  let t4 := subGo fTimeLast 0 none t3
  let t5 := subGo fToday 0 none t4
  let t6 := subGo fYesterday 0 none t5
  let t7 := subGo levelSubAt 0 none t6
  (findWords 0 none t7).filter
    (fun w => !(stop_words.contains (w.map pyToLower)) && decide (2 < w.length) &&
      !(match w with | c :: _ => c.isDigit | [] => false))

/-- `NLQParser._extract_size`: the four size patterns, in source order. -/
def showPat : List Atom :=
  [Atom.lit ("show").data, Atom.cls false pyIsSpace, Atom.cls true Char.isDigit,
   Atom.cls false pyIsSpace, Atom.lit ("result").data, Atom.opt ("s").data]

def limitPat : List Atom :=
  [Atom.lit ("limit").data, Atom.cls false pyIsSpace, Atom.cls true Char.isDigit]

def topPat : List Atom :=
  [Atom.lit ("top").data, Atom.cls false pyIsSpace, Atom.cls true Char.isDigit]

def firstPat : List Atom :=
  [Atom.lit ("first").data, Atom.cls false pyIsSpace, Atom.cls true Char.isDigit]

def capSize (r : Nat × List Str) : Option Nat := r.2.head?.map digitsToNat

def extract_size (q : Str) : Option Nat :=
  match searchFrom showPat none q with
  | some r => capSize r
  | none =>
    match searchFrom limitPat none q with
    | some r => capSize r
    | none =>
      match searchFrom topPat none q with
      | some r => capSize r
      | none =>
        match searchFrom firstPat none q with
        | some r => capSize r
        | none => none

/-- `OpenSearchQueryBuilder.build_log_level_filter`. -/
def build_log_level_filter (lv : Str) : Clause :=
  Clause.cmatch ("log.level").data (lv.map pyToLower)

/-- `OpenSearchQueryBuilder.build_service_filter`. -/
def build_service_filter (name : Str) : Clause :=
  Clause.cmatch ("service.name").data name

/-- `OpenSearchQueryBuilder.build_text_search` with the default `_all` field. -/
def build_text_search (t : Str) : Clause := Clause.cmatch ("_all").data t

/-- Python truthiness of the extracted size (`if size:`, line 203). -/
def resolveSize : Option Nat → Nat
  | some n => if n ≠ 0 then n else 50
  | none => 50

/-- `NLQParser._parse_to_dict`.  Any internal failure (the `KeyError` path of
`build_time_range`) is propagated as `Except.error`, to be caught by the
`parse` façade. -/
def parse_to_dict (s : String) : Except String PResult :=
  if is_unsupported_query (normalizeQ s) then Except.ok (PResult.err errMsg)
  else if is_cluster_query (normalizeQ s) then
    Except.ok (handle_cluster_query (normalizeQ s))
  else if is_cat_query (normalizeQ s) then
    Except.ok (handle_cat_query (normalizeQ s))
  else
    match build_time_range (normalizeQ s) with
    | Except.error e => Except.error e
    | Except.ok tf =>
      Except.ok (PResult.search (resolveSize (extract_size (normalizeQ s)))
        (((extract_log_level (normalizeQ s)).map build_log_level_filter).toList ++
          ((extract_service_name (normalizeQ s)).map build_service_filter).toList ++
          tf.toList ++
          (extract_search_terms (normalizeQ s)).map build_text_search))

/-- `json.dumps(clause, separators=(',', ':'))` for a single must clause. -/
def dumpClause : Clause → Str
  | Clause.cmatch f v =>
    ("\x7b\"match\":\x7b\"").data ++ f ++ ("\":\"").data ++ v ++ ("\"\x7d\x7d").data
  | Clause.crange g none =>
    ("\x7b\"range\":\x7b\"@timestamp\":\x7b\"gte\":\"").data ++ g ++
      ("\"\x7d\x7d\x7d").data
  | Clause.crange g (some lt) =>
    ("\x7b\"range\":\x7b\"@timestamp\":\x7b\"gte\":\"").data ++ g ++
      ("\",\"lt\":\"").data ++ lt ++ ("\"\x7d\x7d\x7d").data

/-- `json.dumps(query_dict, separators=(',', ':'))` (line 143); the dict key
order is the Python insertion order size, sort, query. -/
def dumps : PResult → Str
  | PResult.err m => ("\x7b\"error\":\"").data ++ m.data ++ ("\"\x7d").data
  | PResult.api p => ("\x7b\"api\":\"").data ++ p.data ++ ("\"\x7d").data
  | PResult.search n must =>
    ("\x7b\"size\":").data ++ (Nat.repr n).data ++
      (",\"sort\":[\x7b\"@timestamp\":\"desc\"\x7d],\"query\":").data ++
      (match must with
       | [] => ("\x7b\"match_all\":\x7b\x7d\x7d").data
       | _ =>
         ("\x7b\"bool\":\x7b\"must\":[").data ++
           (List.intercalate (",").data (must.map dumpClause)) ++ ("]\x7d\x7d").data) ++
      ("\x7d").data

/-- The serialized payload of the `except` branch of `parse` (line 150):
`json.dumps` with its default separators, hence the space after the colon. -/
def exceptPayload : String :=
  "\x7b\"error\": \"Unsupported query. Please rephrase or check available APIs.\"\x7d"

/-- `NLQParser.parse`: total façade; serializes the dict on success and
converts any internal exception into the fixed error payload. -/
def parse (s : String) : String :=
  match parse_to_dict s with
  | Except.ok d => (dumps d).asString
  | Except.error _ => exceptPayload

/-- `NLQParser.parse` together with the log lines it emits (the logger
output depends on the `enable_logging` construction flag, the returned
string does not). -/
def parseLog (enableLogging : Bool) (s : String) : String × List String :=
  match parse_to_dict s with
  | Except.ok d =>
    ((dumps d).asString,
      if enableLogging then
        [("Processing query: '") ++ s ++ ("'"),
         ("Generated OpenSearch query: ") ++ (dumps d).asString]
      else [])
  | Except.error e =>
    (exceptPayload,
      if enableLogging then
        [("Processing query: '") ++ s ++ ("'"),
         ("Query processing failed: ") ++ e,
         ("Returning error response: ") ++ exceptPayload]
      else [])

instance {α : Type} [DecidableEq α] : DecidableEq (Except String α)
  | Except.ok x, Except.ok y => decidable_of_iff (x = y) (by simp)
  | Except.ok _, Except.error _ => isFalse (by simp)
  | Except.error _, Except.ok _ => isFalse (by simp)
  | Except.error e, Except.error f => decidable_of_iff (e = f) (by simp)

/-- The ten decimal digit characters. -/
def digitChars : Str := ['0', '1', '2', '3', '4', '5', '6', '7', '8', '9']

lemma nil_isPrefixOf (l : Str) : List.isPrefixOf ([] : Str) l = true := by
  cases l <;> rfl

lemma cons_isPrefixOf_nil (a : Char) (as : Str) :
    List.isPrefixOf (a :: as) ([] : Str) = false := rfl

lemma cons_isPrefixOf_cons (a b : Char) (as bs : Str) :
    List.isPrefixOf (a :: as) (b :: bs) = (a == b && List.isPrefixOf as bs) := rfl

lemma isPrefixOf_trans : ∀ a b c : Str,
    a.isPrefixOf b = true → b.isPrefixOf c = true → a.isPrefixOf c = true := by
  intro a
  induction a with
  | nil => intro b c _ _; exact nil_isPrefixOf c
  | cons x xs ih =>
    intro b c hab hbc
    cases b with
    | nil => rw [cons_isPrefixOf_nil] at hab; exact absurd hab (by simp)
    | cons y ys =>
      cases c with
      | nil => rw [cons_isPrefixOf_nil] at hbc; exact absurd hbc (by simp)
      | cons z zs =>
        rw [cons_isPrefixOf_cons, Bool.and_eq_true, beq_iff_eq] at hab hbc ⊢
        exact ⟨hab.1.trans hbc.1, ih ys zs hab.2 hbc.2⟩

lemma hasSub_mono (k₁ k₂ : Str) (hp : k₁.isPrefixOf k₂ = true) :
    ∀ l, hasSub k₂ l = true → hasSub k₁ l = true := by
  intro l
  induction l with
  | nil =>
    intro h
    simp only [hasSub, List.isEmpty_iff] at h
    subst h
    cases k₁ with
    | nil => rfl
    | cons a as => rw [cons_isPrefixOf_nil] at hp; exact absurd hp (by simp)
  | cons c t ih =>
    intro h
    simp only [hasSub, Bool.or_eq_true] at h ⊢
    rcases h with h | h
    · exact Or.inl (isPrefixOf_trans _ _ _ hp h)
    · exact Or.inr (ih h)

lemma hasSub_append_right (kw : Str) (x B : Str) (h : hasSub kw B = true) :
    hasSub kw (x ++ B) = true := by
  induction x with
  | nil => simpa using h
  | cons c t ih => simp [hasSub, ih]

/-- Helper clause list of the search branch of `_parse_to_dict`. -/
def mustOf (q : Str) (tf : Option Clause) : List Clause :=
  ((extract_log_level q).map build_log_level_filter).toList ++
    ((extract_service_name q).map build_service_filter).toList ++
    tf.toList ++ (extract_search_terms q).map build_text_search

lemma parse_to_dict_search_eq (s : String)
    (h1 : is_unsupported_query (normalizeQ s) = false)
    (h2 : is_cluster_query (normalizeQ s) = false)
    (h3 : is_cat_query (normalizeQ s) = false)
    {tf : Option Clause}
    (h4 : build_time_range (normalizeQ s) = Except.ok tf) :
    parse_to_dict s =
      Except.ok (PResult.search (resolveSize (extract_size (normalizeQ s)))
        (mustOf (normalizeQ s) tf)) := by
  unfold parse_to_dict mustOf
  simp [h1, h2, h3, h4]

lemma parse_ok (s : String) {d : PResult} (h : parse_to_dict s = Except.ok d) :
    parse s = (dumps d).asString := by
  simp [parse, h]

/-- C4: `parse` is total at its boundary: for every input it returns either
the compact serialization of the dict produced by `_parse_to_dict`, or — when
`_parse_to_dict` raises internally — the fixed serialized error payload
`{"error": "Unsupported query. Please rephrase or check available APIs."}`. -/
theorem C4_total_facade : ∀ s : String,
    (∃ d, parse_to_dict s = Except.ok d ∧ parse s = (dumps d).asString) ∨
    (∃ e, parse_to_dict s = Except.error e ∧ parse s = exceptPayload) := by
  intro s
  cases h : parse_to_dict s with
  | ok d => exact Or.inl ⟨d, rfl, by simp [parse, h]⟩
  | error e => exact Or.inr ⟨e, rfl, by simp [parse, h]⟩

/-- C8: `parse` is deterministic: its output is a pure function of the input
string alone — in particular it does not depend on the logger configuration,
and two calls with the same input give byte-identical output. -/
theorem C8_deterministic : ∀ (e₁ e₂ : Bool) (s : String),
    (parseLog e₁ s).1 = (parseLog e₂ s).1 ∧ (parseLog e₁ s).1 = parse s := by
  intro e₁ e₂ s
  cases h : parse_to_dict s with
  | ok d => simp [parseLog, parse, h]
  | error e => simp [parseLog, parse, h]

/-- C5 counterexample: the input `"shard"` reaches the unresolved-cluster
branch and produces an error object whose message is the distinct string
`"Unsupported cluster query. ..."`, so the claimed message is not the sole
error message the program can emit. -/
theorem C5_counterexample :
    parse_to_dict ("shard") = Except.ok (PResult.err clusterErrMsg) ∧
    decide (clusterErrMsg = errMsg) = false ∧
    parse ("shard") =
      ("\x7b\"error\":\"Unsupported cluster query. Please rephrase or check available APIs.\"\x7d") := by
  refine ⟨rfl, rfl, rfl⟩

/-- C5 (amended): every error object the parser can produce carries one of
exactly three fixed messages: the generic unsupported-query message, the
unresolved-cluster message, or the unresolved-cat message. -/
theorem C5_error_messages : ∀ (s : String) (m : String),
    parse_to_dict s = Except.ok (PResult.err m) →
    m = errMsg ∨ m = clusterErrMsg ∨ m = catErrMsg := by
  intro s m h
  unfold parse_to_dict handle_cluster_query handle_cat_query at h
  split_ifs at h <;> try simp_all
  split at h <;> simp_all

/-- C5 witness: the amended statement instantiated at the concrete input
`"shard"`. -/
theorem C5_witness :
    clusterErrMsg = errMsg ∨ clusterErrMsg = clusterErrMsg ∨ clusterErrMsg = catErrMsg :=
  C5_error_messages ("shard") clusterErrMsg (by decide)

/-- C1: whenever the normalized utterance contains an unsupported keyword as
a substring or matches a mutating-verb pattern, `parse` returns the fixed
serialized error payload, regardless of any other content (the unsupported
check runs before the cluster, cat and search classifications). -/
theorem C1_unsupported_precedence : ∀ s : String,
    ((unsupported_keywords.any (fun kw => hasSub kw (normalizeQ s))) = true ∨
      (modify_patterns.any (fun p => (searchFrom p none (normalizeQ s)).isSome)) = true) →
    parse s =
      ("\x7b\"error\":\"Unsupported query. Please rephrase or check available APIs.\"\x7d") := by
  intro s h
  have hu : is_unsupported_query (normalizeQ s) = true := by
    unfold is_unsupported_query
    rcases h with h | h <;> simp [h]
  have hd : parse_to_dict s = Except.ok (PResult.err errMsg) := by
    unfold parse_to_dict
    simp [hu]
  rw [parse_ok s hd]
  rfl

/-- C1 witness: the unsupported-keyword hypothesis holds for
`"create a new index with custom mappings"` and the conclusion follows. -/
theorem C1_witness :
    parse ("create a new index with custom mappings") =
      ("\x7b\"error\":\"Unsupported query. Please rephrase or check available APIs.\"\x7d") :=
  C1_unsupported_precedence ("create a new index with custom mappings")
    (Or.inl (by decide))

/-- C6: for every utterance on which no facet extractor matches and no
unsupported, cluster or cat trigger fires, `parse` returns exactly the
default query string (size 50, fixed descending-timestamp sort, match-all). -/
theorem C6_default_output : ∀ s : String,
    is_unsupported_query (normalizeQ s) = false →
    is_cluster_query (normalizeQ s) = false →
    is_cat_query (normalizeQ s) = false →
    extract_log_level (normalizeQ s) = none →
    extract_service_name (normalizeQ s) = none →
    build_time_range (normalizeQ s) = Except.ok none →
    extract_search_terms (normalizeQ s) = [] →
    extract_size (normalizeQ s) = none →
    parse s =
      ("\x7b\"size\":50,\"sort\":[\x7b\"@timestamp\":\"desc\"\x7d],\"query\":\x7b\"match_all\":\x7b\x7d\x7d\x7d") := by
  intro s h1 h2 h3 h4 h5 h6 h7 h8
  have hd := parse_to_dict_search_eq s h1 h2 h3 h6
  rw [h8] at hd
  unfold mustOf at hd
  rw [h4, h5, h7] at hd
  rw [parse_ok s hd]
  rfl

/-- C6 witness: the empty utterance triggers nothing and produces the
default query. -/
theorem C6_witness :
    parse ("") =
      ("\x7b\"size\":50,\"sort\":[\x7b\"@timestamp\":\"desc\"\x7d],\"query\":\x7b\"match_all\":\x7b\x7d\x7d\x7d") :=
  C6_default_output ("") rfl rfl rfl rfl rfl rfl rfl rfl

lemma resolveSize_cases (o : Option Nat) :
    resolveSize o = 50 ∨ ∃ n, o = some n ∧ 0 < n ∧ resolveSize o = n := by
  cases o with
  | none => exact Or.inl rfl
  | some n =>
    by_cases hn : n = 0
    · subst hn
      exact Or.inl rfl
    · refine Or.inr ⟨n, rfl, Nat.pos_of_ne_zero hn, ?_⟩
      simp [resolveSize, hn]

/-- C10: a falsy extracted size does not override the default: the size
field of every search output is either the default 50 or a positive matched
integer, never 0; in particular `"top 0 errors"` yields size 50. -/
theorem C10_zero_size :
    (∀ (s : String) (sz : Nat) (must : List Clause),
      parse_to_dict s = Except.ok (PResult.search sz must) →
      sz = 50 ∨ ∃ n, extract_size (normalizeQ s) = some n ∧ 0 < n ∧ sz = n) ∧
    parse_to_dict ("top 0 errors") =
      Except.ok (PResult.search 50 [build_log_level_filter (("error").data)]) := by
  constructor
  · intro s sz must h
    unfold parse_to_dict at h
    by_cases h1 : is_unsupported_query (normalizeQ s) = true
    · rw [if_pos h1] at h
      exact absurd h (by simp)
    · rw [if_neg h1] at h
      by_cases h2 : is_cluster_query (normalizeQ s) = true
      · rw [if_pos h2] at h
        unfold handle_cluster_query at h
        split_ifs at h <;> simp at h
      · rw [if_neg h2] at h
        by_cases h3 : is_cat_query (normalizeQ s) = true
        · rw [if_pos h3] at h
          unfold handle_cat_query at h
          split_ifs at h <;> simp at h
        · rw [if_neg h3] at h
          cases hbt : build_time_range (normalizeQ s) with
          | error e =>
            rw [hbt] at h
            exact absurd h (by simp)
          | ok tf =>
            rw [hbt] at h
            simp only [Except.ok.injEq, PResult.search.injEq] at h
            rcases h with ⟨hsz, _⟩
            rcases resolveSize_cases (extract_size (normalizeQ s)) with h50 | ⟨n, he, hp, hv⟩
            · exact Or.inl (hsz.symm.trans h50)
            · exact Or.inr ⟨n, he, hp, hsz.symm.trans hv⟩
  · rfl

/-- C10 witness: the first conjunct instantiated at `"top 0 errors"`, where
the extracted size is 0 and the output size is the default 50. -/
theorem C10_witness :
    (50 : Nat) = 50 ∨
      ∃ n, extract_size (normalizeQ ("top 0 errors")) = some n ∧ 0 < n ∧ 50 = n :=
  C10_zero_size.1 ("top 0 errors") 50 [build_log_level_filter (("error").data)]
    C10_zero_size.2

/-- C2: for every search-intent utterance the must clauses appear in the
fixed order level, service, time-range, then one match clause per surviving
search term; and the end-to-end scenario on
`"I want to get details of errors in last 5 minutes for checkout-service"`
produces exactly the claimed serialized query. -/
theorem C2_clause_order :
    (∀ (s : String) (tf : Option Clause),
      is_unsupported_query (normalizeQ s) = false →
      is_cluster_query (normalizeQ s) = false →
      is_cat_query (normalizeQ s) = false →
      build_time_range (normalizeQ s) = Except.ok tf →
      parse_to_dict s =
        Except.ok (PResult.search (resolveSize (extract_size (normalizeQ s)))
          (((extract_log_level (normalizeQ s)).map build_log_level_filter).toList ++
            ((extract_service_name (normalizeQ s)).map build_service_filter).toList ++
            tf.toList ++
            (extract_search_terms (normalizeQ s)).map build_text_search))) ∧
    parse ("I want to get details of errors in last 5 minutes for checkout-service") =
      ("\x7b\"size\":50,\"sort\":[\x7b\"@timestamp\":\"desc\"\x7d],\"query\":\x7b\"bool\":\x7b\"must\":[\x7b\"match\":\x7b\"log.level\":\"error\"\x7d\x7d,\x7b\"match\":\x7b\"service.name\":\"checkout-service\"\x7d\x7d,\x7b\"range\":\x7b\"@timestamp\":\x7b\"gte\":\"now-5m\"\x7d\x7d\x7d]\x7d\x7d\x7d") := by
  constructor
  · intro s tf h1 h2 h3 h4
    exact parse_to_dict_search_eq s h1 h2 h3 h4
  · rfl

/-- C2 witness: the search-branch shape instantiated at the end-to-end
scenario input, with every hypothesis discharged by computation. -/
theorem C2_witness :
    parse_to_dict ("I want to get details of errors in last 5 minutes for checkout-service") =
      Except.ok (PResult.search
        (resolveSize (extract_size (normalizeQ ("I want to get details of errors in last 5 minutes for checkout-service"))))
        (((extract_log_level (normalizeQ ("I want to get details of errors in last 5 minutes for checkout-service"))).map build_log_level_filter).toList ++
          ((extract_service_name (normalizeQ ("I want to get details of errors in last 5 minutes for checkout-service"))).map build_service_filter).toList ++
          (some (Clause.crange (("now-5m").data) none)).toList ++
          (extract_search_terms (normalizeQ ("I want to get details of errors in last 5 minutes for checkout-service"))).map build_text_search)) :=
  C2_clause_order.1 ("I want to get details of errors in last 5 minutes for checkout-service")
    (some (Clause.crange (("now-5m").data) none)) rfl rfl rfl rfl

/-- C3: time-range extraction tries the `last <int> <unit>` pattern first
(mapping units through the synonym table to m/h/d/w/M/y, with uppercase M
for months), then the literal `today`, then the literal `yesterday`, and
otherwise produces no clause; in particular `last 5 minutes` gives `now-5m`
and `last 2 hours` gives `now-2h`. -/
theorem C3_time_range :
    (∀ q : Str,
      searchFrom timePat none (q.map pyToLower) = none →
      hasSub (("today").data) (q.map pyToLower) = false →
      hasSub (("yesterday").data) (q.map pyToLower) = false →
      build_time_range q = Except.ok none) ∧
    (∀ q : Str,
      searchFrom timePat none (q.map pyToLower) = none →
      hasSub (("today").data) (q.map pyToLower) = true →
      build_time_range q = Except.ok (some todayClause)) ∧
    (∀ q : Str,
      searchFrom timePat none (q.map pyToLower) = none →
      hasSub (("today").data) (q.map pyToLower) = false →
      hasSub (("yesterday").data) (q.map pyToLower) = true →
      build_time_range q = Except.ok (some yesterdayClause)) ∧
    (∀ (q : Str) (n : Nat) (amount unit eu : Str),
      searchFrom timePat none (q.map pyToLower) = some (n, [amount, unit]) →
      time_map.lookup unit = some eu →
      build_time_range q =
        Except.ok (some (Clause.crange ((("now-").data) ++ amount ++ eu) none))) ∧
    build_time_range (("last 5 minutes").data) =
      Except.ok (some (Clause.crange (("now-5m").data) none)) ∧
    build_time_range (("last 1 minute").data) =
      Except.ok (some (Clause.crange (("now-1m").data) none)) ∧
    build_time_range (("last 2 min").data) =
      Except.ok (some (Clause.crange (("now-2m").data) none)) ∧
    build_time_range (("last 2 hours").data) =
      Except.ok (some (Clause.crange (("now-2h").data) none)) ∧
    build_time_range (("last 1 hour").data) =
      Except.ok (some (Clause.crange (("now-1h").data) none)) ∧
    build_time_range (("last 3 hr").data) =
      Except.ok (some (Clause.crange (("now-3h").data) none)) ∧
    build_time_range (("last 4 hrs").data) =
      Except.ok (some (Clause.crange (("now-4h").data) none)) ∧
    build_time_range (("last 1 day").data) =
      Except.ok (some (Clause.crange (("now-1d").data) none)) ∧
    build_time_range (("last 7 days").data) =
      Except.ok (some (Clause.crange (("now-7d").data) none)) ∧
    build_time_range (("last 1 week").data) =
      Except.ok (some (Clause.crange (("now-1w").data) none)) ∧
    build_time_range (("last 2 weeks").data) =
      Except.ok (some (Clause.crange (("now-2w").data) none)) ∧
    build_time_range (("last 1 month").data) =
      Except.ok (some (Clause.crange (("now-1M").data) none)) ∧
    build_time_range (("last 3 months").data) =
      Except.ok (some (Clause.crange (("now-3M").data) none)) ∧
    build_time_range (("last 1 year").data) =
      Except.ok (some (Clause.crange (("now-1y").data) none)) ∧
    build_time_range (("last 2 years").data) =
      Except.ok (some (Clause.crange (("now-2y").data) none)) ∧
    build_time_range (("today").data) = Except.ok (some todayClause) ∧
    build_time_range (("yesterday").data) = Except.ok (some yesterdayClause) ∧
    build_time_range (("last 2 hours today").data) =
      Except.ok (some (Clause.crange (("now-2h").data) none)) ∧
    build_time_range (("today yesterday").data) = Except.ok (some todayClause) ∧
    build_time_range (("hello").data) = Except.ok none := by
  refine ⟨?_, ?_, ?_, ?_, rfl, rfl, rfl, rfl, rfl, rfl, rfl, rfl, rfl, rfl,
    rfl, rfl, rfl, rfl, rfl, rfl, rfl, rfl, rfl, rfl⟩
  · intro q h1 h2 h3
    unfold build_time_range
    simp [h1, h2, h3]
  · intro q h1 h2
    unfold build_time_range
    simp [h1, h2]
  · intro q h1 h2 h3
    unfold build_time_range
    simp [h1, h2, h3]
  · intro q n amount unit eu h1 h2
    unfold build_time_range
    simp [h1, h2]

/-- C3 witness: the no-match branch of the cascade instantiated at a
concrete utterance with no time expression. -/
theorem C3_witness : build_time_range (("plain text").data) = Except.ok none :=
  C3_time_range.1 (("plain text").data) rfl rfl rfl

lemma api_reachable : ∀ (s : String) (p : String),
    parse_to_dict s = Except.ok (PResult.api p) →
    p = "_cluster/health" ∨ p = "_cat/nodes?v" ∨ p = "_cat/indices?v" := by
  intro s p h
  unfold parse_to_dict at h
  by_cases h1 : is_unsupported_query (normalizeQ s) = true
  · rw [if_pos h1] at h
    exact absurd h (by simp)
  · rw [if_neg h1] at h
    by_cases h2 : is_cluster_query (normalizeQ s) = true
    · rw [if_pos h2] at h
      unfold handle_cluster_query at h
      split_ifs at h
      · simp only [Except.ok.injEq, PResult.api.injEq] at h
        exact Or.inl h.symm
      · simp only [Except.ok.injEq, PResult.api.injEq] at h
        exact Or.inr (Or.inl h.symm)
      · exact absurd h (by simp)
    · rw [if_neg h2] at h
      by_cases h3 : is_cat_query (normalizeQ s) = true
      · rw [if_pos h3] at h
        unfold handle_cat_query at h
        split_ifs at h with hc1 hc2 hc3
        · simp only [Except.ok.injEq, PResult.api.injEq] at h
          exact Or.inr (Or.inr h.symm)
        · simp only [Except.ok.injEq, PResult.api.injEq] at h
          exact Or.inr (Or.inl h.symm)
        · exfalso
          have hcl : is_cluster_query (normalizeQ s) = false := by
            exact Bool.not_eq_true _ ▸ (by simpa using h2)
          have hshard : hasSub (("shard").data) (normalizeQ s) = true :=
            hasSub_mono (("shard").data) (("shards").data) (by decide) _ hc3
          unfold is_cluster_query cluster_keywords at hcl
          simp [List.any_eq_false] at hcl
          exact absurd hshard (by simp [hcl.2.2.2])
        · exact absurd h (by simp)
      · rw [if_neg h3] at h
        cases hbt : build_time_range (normalizeQ s) with
        | error e =>
          rw [hbt] at h
          exact absurd h (by simp)
        | ok tf =>
          rw [hbt] at h
          exact absurd h (by simp)

/-- C9: the administrative payload for cat shards is unreachable: any
utterance matching a cat-shards pattern contains the substring `shard`,
which the earlier cluster check intercepts, so `parse` never returns
`{"api":"_cat/shards?v"}`. -/
theorem C9_cat_shards_unreachable : ∀ s : String,
    decide (parse_to_dict s = Except.ok (PResult.api "_cat/shards?v")) = false ∧
    decide (parse s = ("\x7b\"api\":\"_cat/shards?v\"\x7d")) = false := by
  intro s
  constructor
  · rw [decide_eq_false_iff_not]
    intro h
    rcases api_reachable s _ h with h' | h' | h' <;> exact absurd h' (by decide)
  · rw [decide_eq_false_iff_not]
    intro h
    cases hd : parse_to_dict s with
    | error e =>
      rw [show parse s = exceptPayload from by simp [parse, hd]] at h
      exact absurd h (by decide)
    | ok d =>
      rw [parse_ok s hd] at h
      have hdata : dumps d = (("\x7b\"api\":\"_cat/shards?v\"\x7d")).data :=
        congrArg String.data h
      cases d with
      | err m =>
        have h2 : (dumps (PResult.err m))[2]? = some 'e' := rfl
        rw [hdata] at h2
        exact absurd h2 (by decide)
      | api p =>
        rcases api_reachable s p hd with h' | h' | h' <;> subst h' <;>
          exact absurd hdata (by decide)
      | search n must =>
        have h2 : (dumps (PResult.search n must))[2]? = some 's' := rfl
        rw [hdata] at h2
        exact absurd h2 (by decide)

lemma digitChar_mem (m : Nat) (h : m < 10) : Nat.digitChar m ∈ digitChars := by
  interval_cases m <;> decide

lemma digitChar_val (m : Nat) (h : m < 10) : (Nat.digitChar m).toNat - 48 = m := by
  interval_cases m <;> decide

lemma toDigitsCore_spec : ∀ (fuel n : Nat) (ds : List Char), n < fuel →
    ∃ pre : List Char,
      Nat.toDigitsCore 10 fuel n ds = pre ++ ds ∧ pre ≠ [] ∧
      (∀ c ∈ pre, c ∈ digitChars) ∧
      ∀ a : Nat, List.foldl (fun x c => 10 * x + (c.toNat - 48)) a pre =
        a * 10 ^ pre.length + n := by
  intro fuel
  induction fuel with
  | zero => intro n ds h; exact absurd h (Nat.not_lt_zero n)
  | succ fuel ih =>
    intro n ds h
    rw [show Nat.toDigitsCore 10 (fuel + 1) n ds =
      (if n / 10 = 0 then Nat.digitChar (n % 10) :: ds
       else Nat.toDigitsCore 10 fuel (n / 10) (Nat.digitChar (n % 10) :: ds)) from rfl]
    by_cases h0 : n / 10 = 0
    · rw [if_pos h0]
      refine ⟨[Nat.digitChar (n % 10)], rfl, by simp, ?_, ?_⟩
      · intro c hc
        simp only [List.mem_singleton] at hc
        subst hc
        exact digitChar_mem _ (Nat.mod_lt n (by norm_num))
      · intro a
        have hn10 : n < 10 := by omega
        simp only [List.foldl_cons, List.foldl_nil, List.length_singleton]
        rw [digitChar_val _ (Nat.mod_lt n (by norm_num))]
        have : n % 10 = n := Nat.mod_eq_of_lt hn10
        rw [this]
        ring
    · rw [if_neg h0]
      have hlt : n / 10 < fuel := by omega
      obtain ⟨pre, heq, hne, hmem, hval⟩ := ih (n / 10) (Nat.digitChar (n % 10) :: ds) hlt
      refine ⟨pre ++ [Nat.digitChar (n % 10)], ?_, by simp, ?_, ?_⟩
      · rw [heq, List.append_assoc]
        rfl
      · intro c hc
        rcases List.mem_append.mp hc with hc | hc
        · exact hmem c hc
        · simp only [List.mem_singleton] at hc
          subst hc
          exact digitChar_mem _ (Nat.mod_lt n (by norm_num))
      · intro a
        rw [List.foldl_append, hval a]
        simp only [List.foldl_cons, List.foldl_nil, List.length_append,
          List.length_singleton]
        rw [digitChar_val _ (Nat.mod_lt n (by norm_num)), pow_succ, ← mul_assoc]
        generalize a * 10 ^ pre.length = M
        omega

lemma toDigits_spec (n : Nat) :
    Nat.toDigits 10 n ≠ [] ∧ (∀ c ∈ Nat.toDigits 10 n, c ∈ digitChars) ∧
      digitsToNat (Nat.toDigits 10 n) = n := by
  obtain ⟨pre, heq, hne, hmem, hval⟩ := toDigitsCore_spec (n + 1) n [] (Nat.lt_succ_self n)
  have e : Nat.toDigits 10 n = pre := by
    rw [show Nat.toDigits 10 n = Nat.toDigitsCore 10 (n + 1) n [] from rfl, heq,
      List.append_nil]
  rw [e]
  refine ⟨hne, hmem, ?_⟩
  have := hval 0
  simpa [digitsToNat] using this

/-- Prefix of the `top N errors` utterance family. -/
def famA : Str := ("top ").data

/-- Suffix of the `top N errors` utterance family. -/
def famB : Str := (" errors").data

lemma digit_lower (c : Char) (h : c ∈ digitChars) : pyToLower c = c := by
  rw [show digitChars = ['0', '1', '2', '3', '4', '5', '6', '7', '8', '9'] from rfl] at h
  simp only [List.mem_cons, List.not_mem_nil, or_false] at h
  rcases h with rfl | rfl | rfl | rfl | rfl | rfl | rfl | rfl | rfl | rfl <;> rfl

lemma digit_isDigit (c : Char) (h : c ∈ digitChars) : c.isDigit = true := by
  rw [show digitChars = ['0', '1', '2', '3', '4', '5', '6', '7', '8', '9'] from rfl] at h
  simp only [List.mem_cons, List.not_mem_nil, or_false] at h
  rcases h with rfl | rfl | rfl | rfl | rfl | rfl | rfl | rfl | rfl | rfl <;> rfl

lemma digit_not_space (c : Char) (h : c ∈ digitChars) : pyIsSpace c = false := by
  rw [show digitChars = ['0', '1', '2', '3', '4', '5', '6', '7', '8', '9'] from rfl] at h
  simp only [List.mem_cons, List.not_mem_nil, or_false] at h
  rcases h with rfl | rfl | rfl | rfl | rfl | rfl | rfl | rfl | rfl | rfl <;> rfl

lemma beq_digit_false (x c : Char) (hx : x.isDigit = false) (hc : c.isDigit = true) :
    (x == c) = false := by
  cases hxy : x == c
  · rfl
  · have := eq_of_beq hxy
    subst this
    rw [hc] at hx
    exact absurd hx (by simp)

/-- A mismatch inside the common region of `kw` and `s`. -/
def mism (kw s : Str) : Bool := (kw.zip s).any (fun pq => pq.1 != pq.2)

lemma isPrefixOf_false_of_mism : ∀ kw s r : Str,
    mism kw s = true → kw.isPrefixOf (s ++ r) = false := by
  intro kw
  induction kw with
  | nil => intro s r h; simp [mism] at h
  | cons x xs ih =>
    intro s r h
    cases s with
    | nil => simp [mism] at h
    | cons y ys =>
      simp only [mism, List.zip_cons_cons, List.any_cons, Bool.or_eq_true] at h
      rw [List.cons_append, cons_isPrefixOf_cons]
      rcases h with h | h
      · have : (x == y) = false := by
          cases hxy : x == y
          · rfl
          · rw [eq_of_beq hxy] at h
            simp at h
        rw [this]
        rfl
      · rw [ih ys r h]
        exact Bool.and_false _

lemma hasSub_nil_eq (kw : Str) : hasSub kw [] = kw.isEmpty := rfl

lemma hasSub_cons_eq (kw : Str) (c : Char) (t : Str) :
    hasSub kw (c :: t) = (kw.isPrefixOf (c :: t) || hasSub kw t) := rfl

lemma hasSub_digits (kw : Str) {x : Char} {xs : Str} (h0 : kw = x :: xs)
    (hx : x.isDigit = false) (hB : hasSub kw famB = false) :
    ∀ d, (∀ c ∈ d, c ∈ digitChars) → hasSub kw (d ++ famB) = false := by
  intro d
  induction d with
  | nil => intro _; simpa using hB
  | cons c t ih =>
    intro hd
    rw [List.cons_append, hasSub_cons_eq]
    have hpf : kw.isPrefixOf (c :: (t ++ famB)) = false := by
      rw [h0, cons_isPrefixOf_cons,
        beq_digit_false x c hx (digit_isDigit c (hd c (by simp)))]
      rfl
    rw [hpf, ih (fun c' hc' => hd c' (by simp [hc']))]
    rfl

lemma hasSub_family (kw : Str) {x : Char} {xs : Str} (h0 : kw = x :: xs)
    (hx : x.isDigit = false) (hB : hasSub kw famB = false)
    (h1 : mism kw (("top ").data) = true) (h2 : mism kw (("op ").data) = true)
    (h3 : mism kw (("p ").data) = true) (h4 : mism kw ((" ").data) = true) :
    ∀ d, (∀ c ∈ d, c ∈ digitChars) → hasSub kw (famA ++ (d ++ famB)) = false := by
  intro d hd
  have e : famA ++ (d ++ famB) = 't' :: 'o' :: 'p' :: ' ' :: (d ++ famB) := rfl
  rw [e, hasSub_cons_eq, hasSub_cons_eq, hasSub_cons_eq, hasSub_cons_eq]
  have p1 : kw.isPrefixOf ('t' :: 'o' :: 'p' :: ' ' :: (d ++ famB)) = false :=
    isPrefixOf_false_of_mism kw (("top ").data) (d ++ famB) h1
  have p2 : kw.isPrefixOf ('o' :: 'p' :: ' ' :: (d ++ famB)) = false :=
    isPrefixOf_false_of_mism kw (("op ").data) (d ++ famB) h2
  have p3 : kw.isPrefixOf ('p' :: ' ' :: (d ++ famB)) = false :=
    isPrefixOf_false_of_mism kw (("p ").data) (d ++ famB) h3
  have p4 : kw.isPrefixOf (' ' :: (d ++ famB)) = false :=
    isPrefixOf_false_of_mism kw ((" ").data) (d ++ famB) h4
  rw [p1, p2, p3, p4, hasSub_digits kw h0 hx hB d hd]
  rfl

lemma matchAtoms_lit_none (w : Str) (rest : List Atom) (prev : Option Char) (l : Str)
    (h : w.isPrefixOf l = false) : matchAtoms (Atom.lit w :: rest) prev l = none := by
  have e : matchAtoms (Atom.lit w :: rest) prev l =
      if w.isPrefixOf l = true then
        (matchAtoms rest (lastCh prev w) (l.drop w.length)).map
          (fun r => (w.length + r.1, r.2))
      else none := rfl
  rw [e, h]
  simp

lemma matchAtoms_wordB_lit_none (w : Str) (rest : List Atom) (prev : Option Char)
    (l : Str) (h : w.isPrefixOf l = false) :
    matchAtoms (Atom.wordB :: Atom.lit w :: rest) prev l = none := by
  have e : matchAtoms (Atom.wordB :: Atom.lit w :: rest) prev l =
      if (isWordOpt prev != isWordOpt l.head?) = true then
        matchAtoms (Atom.lit w :: rest) prev l
      else none := rfl
  rw [e]
  by_cases hb : (isWordOpt prev != isWordOpt l.head?) = true
  · rw [if_pos hb]
    exact matchAtoms_lit_none w rest prev l h
  · rw [if_neg hb]

lemma searchFrom_nil_eq (ats : List Atom) (prev : Option Char) :
    searchFrom ats prev [] = matchAtoms ats prev [] := rfl

lemma searchFrom_cons_eq (ats : List Atom) (prev : Option Char) (c : Char) (t : Str) :
    searchFrom ats prev (c :: t) =
      (match matchAtoms ats prev (c :: t) with
       | some r => some r
       | none => searchFrom ats (some c) t) := rfl

lemma searchFrom_lit_none (ats : List Atom) (w : Str) (rest : List Atom)
    (hats : ats = Atom.lit w :: rest) :
    ∀ (l : Str) (prev : Option Char), hasSub w l = false → searchFrom ats prev l = none := by
  subst hats
  intro l
  induction l with
  | nil =>
    intro prev h
    rw [searchFrom_nil_eq]
    apply matchAtoms_lit_none
    rw [hasSub_nil_eq] at h
    cases w with
    | nil => simp at h
    | cons a as => exact cons_isPrefixOf_nil a as
  | cons c t ih =>
    intro prev h
    rw [hasSub_cons_eq, Bool.or_eq_false_iff] at h
    rw [searchFrom_cons_eq, matchAtoms_lit_none w rest prev (c :: t) h.1]
    exact ih (some c) h.2

lemma searchFrom_wordB_lit_none (ats : List Atom) (w : Str) (rest : List Atom)
    (hats : ats = Atom.wordB :: Atom.lit w :: rest) :
    ∀ (l : Str) (prev : Option Char), hasSub w l = false → searchFrom ats prev l = none := by
  subst hats
  intro l
  induction l with
  | nil =>
    intro prev h
    rw [searchFrom_nil_eq]
    apply matchAtoms_wordB_lit_none
    rw [hasSub_nil_eq] at h
    cases w with
    | nil => simp at h
    | cons a as => exact cons_isPrefixOf_nil a as
  | cons c t ih =>
    intro prev h
    rw [hasSub_cons_eq, Bool.or_eq_false_iff] at h
    rw [searchFrom_cons_eq, matchAtoms_wordB_lit_none w rest prev (c :: t) h.1]
    exact ih (some c) h.2

lemma unsup_family (d : Str) (hd : ∀ c ∈ d, c ∈ digitChars) :
    is_unsupported_query (famA ++ (d ++ famB)) = false := by
  have k01 := hasSub_family (("create").data) rfl (by decide) (by decide) (by decide)
    (by decide) (by decide) (by decide) d hd
  have k02 := hasSub_family (("delete").data) rfl (by decide) (by decide) (by decide)
    (by decide) (by decide) (by decide) d hd
  have k03 := hasSub_family (("update").data) rfl (by decide) (by decide) (by decide)
    (by decide) (by decide) (by decide) d hd
  have k04 := hasSub_family (("insert").data) rfl (by decide) (by decide) (by decide)
    (by decide) (by decide) (by decide) d hd
  have k05 := hasSub_family (("put").data) rfl (by decide) (by decide) (by decide)
    (by decide) (by decide) (by decide) d hd
  have k06 := hasSub_family (("post").data) rfl (by decide) (by decide) (by decide)
    (by decide) (by decide) (by decide) d hd
  have k07 := hasSub_family (("mapping").data) rfl (by decide) (by decide) (by decide)
    (by decide) (by decide) (by decide) d hd
  have k08 := hasSub_family (("mappings").data) rfl (by decide) (by decide) (by decide)
    (by decide) (by decide) (by decide) d hd
  have k09 := hasSub_family (("index").data) rfl (by decide) (by decide) (by decide)
    (by decide) (by decide) (by decide) d hd
  have k10 := hasSub_family (("reindex").data) rfl (by decide) (by decide) (by decide)
    (by decide) (by decide) (by decide) d hd
  have k11 := hasSub_family (("bulk").data) rfl (by decide) (by decide) (by decide)
    (by decide) (by decide) (by decide) d hd
  have k12 := hasSub_family (("scroll").data) rfl (by decide) (by decide) (by decide)
    (by decide) (by decide) (by decide) d hd
  have k13 := hasSub_family (("aggregate").data) rfl (by decide) (by decide) (by decide)
    (by decide) (by decide) (by decide) d hd
  have k14 := hasSub_family (("aggregation").data) rfl (by decide) (by decide) (by decide)
    (by decide) (by decide) (by decide) d hd
  have k15 := hasSub_family (("pipeline").data) rfl (by decide) (by decide) (by decide)
    (by decide) (by decide) (by decide) d hd
  have k16 := hasSub_family (("template").data) rfl (by decide) (by decide) (by decide)
    (by decide) (by decide) (by decide) d hd
  have k17 := hasSub_family (("settings").data) rfl (by decide) (by decide) (by decide)
    (by decide) (by decide) (by decide) d hd
  have k18 := hasSub_family (("alias").data) rfl (by decide) (by decide) (by decide)
    (by decide) (by decide) (by decide) d hd
  have k19 := hasSub_family (("aliases").data) rfl (by decide) (by decide) (by decide)
    (by decide) (by decide) (by decide) d hd
  have k20 := hasSub_family (("snapshot").data) rfl (by decide) (by decide) (by decide)
    (by decide) (by decide) (by decide) d hd
  have k21 := hasSub_family (("restore").data) rfl (by decide) (by decide) (by decide)
    (by decide) (by decide) (by decide) d hd
  have k22 := hasSub_family (("backup").data) rfl (by decide) (by decide) (by decide)
    (by decide) (by decide) (by decide) d hd
  have k23 := hasSub_family (("add").data) rfl (by decide) (by decide) (by decide)
    (by decide) (by decide) (by decide) d hd
  have k24 := hasSub_family (("remove").data) rfl (by decide) (by decide) (by decide)
    (by decide) (by decide) (by decide) d hd
  have k25 := hasSub_family (("modify").data) rfl (by decide) (by decide) (by decide)
    (by decide) (by decide) (by decide) d hd
  have k26 := hasSub_family (("change").data) rfl (by decide) (by decide) (by decide)
    (by decide) (by decide) (by decide) d hd
  simp only [is_unsupported_query, unsupported_keywords, modify_patterns,
    List.any_cons, List.any_nil]
  rw [k01, k02, k03, k04, k05, k06, k07, k08, k09, k10, k11, k12, k13, k14, k15,
    k16, k17, k18, k19, k20, k21, k22]
  rw [searchFrom_lit_none _ _ _ rfl _ none k01, searchFrom_lit_none _ _ _ rfl _ none k02,
    searchFrom_lit_none _ _ _ rfl _ none k03, searchFrom_lit_none _ _ _ rfl _ none k04,
    searchFrom_lit_none _ _ _ rfl _ none k23, searchFrom_lit_none _ _ _ rfl _ none k24,
    searchFrom_lit_none _ _ _ rfl _ none k25, searchFrom_lit_none _ _ _ rfl _ none k26]
  simp

lemma cluster_family (d : Str) (hd : ∀ c ∈ d, c ∈ digitChars) :
    is_cluster_query (famA ++ (d ++ famB)) = false := by
  have k1 := hasSub_family (("cluster health").data) rfl (by decide) (by decide)
    (by decide) (by decide) (by decide) (by decide) d hd
  have k2 := hasSub_family (("cluster status").data) rfl (by decide) (by decide)
    (by decide) (by decide) (by decide) (by decide) d hd
  have k3 := hasSub_family (("node").data) rfl (by decide) (by decide) (by decide)
    (by decide) (by decide) (by decide) d hd
  have k4 := hasSub_family (("shard").data) rfl (by decide) (by decide) (by decide)
    (by decide) (by decide) (by decide) d hd
  simp only [is_cluster_query, cluster_keywords, List.any_cons, List.any_nil]
  rw [k1, k2, k3, k4]
  rfl

lemma cat_family (d : Str) (hd : ∀ c ∈ d, c ∈ digitChars) :
    is_cat_query (famA ++ (d ++ famB)) = false := by
  have kl := hasSub_family (("list").data) rfl (by decide) (by decide) (by decide)
    (by decide) (by decide) (by decide) d hd
  have ks := hasSub_family (("show").data) rfl (by decide) (by decide) (by decide)
    (by decide) (by decide) (by decide) d hd
  have kc := hasSub_family (("cat").data) rfl (by decide) (by decide) (by decide)
    (by decide) (by decide) (by decide) d hd
  simp only [is_cat_query, cat_patterns, List.any_cons, List.any_nil]
  rw [searchFrom_wordB_lit_none _ _ _ rfl _ none kl,
    searchFrom_wordB_lit_none _ _ _ rfl _ none ks,
    searchFrom_wordB_lit_none _ _ _ rfl _ none kl,
    searchFrom_wordB_lit_none _ _ _ rfl _ none ks,
    searchFrom_wordB_lit_none _ _ _ rfl _ none kl,
    searchFrom_wordB_lit_none _ _ _ rfl _ none ks,
    searchFrom_wordB_lit_none _ _ _ rfl _ none kc]
  rfl

lemma map_lower_digits (d : Str) (hd : ∀ c ∈ d, c ∈ digitChars) :
    d.map pyToLower = d := by
  induction d with
  | nil => rfl
  | cons c t ih =>
    rw [List.map_cons, digit_lower c (hd c (by simp)),
      ih (fun c' hc' => hd c' (by simp [hc']))]

lemma map_lower_family (d : Str) (hd : ∀ c ∈ d, c ∈ digitChars) :
    (famA ++ (d ++ famB)).map pyToLower = famA ++ (d ++ famB) := by
  rw [List.map_append, List.map_append, map_lower_digits d hd,
    show famA.map pyToLower = famA from rfl, show famB.map pyToLower = famB from rfl]

lemma btr_family (d : Str) (hd : ∀ c ∈ d, c ∈ digitChars) :
    build_time_range (famA ++ (d ++ famB)) = Except.ok none := by
  have hlast := hasSub_family (("last").data) rfl (by decide) (by decide) (by decide)
    (by decide) (by decide) (by decide) d hd
  have ht := hasSub_family (("today").data) rfl (by decide) (by decide) (by decide)
    (by decide) (by decide) (by decide) d hd
  have hy := hasSub_family (("yesterday").data) rfl (by decide) (by decide) (by decide)
    (by decide) (by decide) (by decide) d hd
  unfold build_time_range
  rw [map_lower_family d hd,
    searchFrom_lit_none timePat (("last").data) _ rfl _ none hlast, ht, hy]
  rfl

lemma svcP1At_gate (l : Str) (h : ("for").data.isPrefixOf l = false) :
    svcP1At l = none := by
  unfold svcP1At
  rw [h]
  simp

lemma svcP2At_gate (l : Str) (h : ("in").data.isPrefixOf l = false) :
    svcP2At l = none := by
  unfold svcP2At
  rw [h]
  simp

lemma svcP4At_gate (l : Str) (h : serviceLit.isPrefixOf l = false) :
    svcP4At l = none := by
  unfold svcP4At
  rw [h]
  simp

lemma scanFirst_gate_none (f : Str → Option (Str × Nat)) (w : Str) (hw : w ≠ [])
    (hgate : ∀ l, w.isPrefixOf l = false → f l = none) :
    ∀ l, hasSub w l = false → scanFirst f l = none := by
  intro l
  induction l with
  | nil =>
    intro _
    rw [show scanFirst f [] = f [] from rfl]
    apply hgate
    cases w with
    | nil => exact absurd rfl hw
    | cons a as => exact cons_isPrefixOf_nil a as
  | cons c t ih =>
    intro h
    rw [hasSub_cons_eq, Bool.or_eq_false_iff] at h
    simp only [scanFirst]
    rw [hgate _ h.1]
    exact ih h.2

lemma no_prefix_at (w : Str) (hw : w ≠ []) :
    ∀ l, hasSub w l = false → ∀ j, w.isPrefixOf (l.drop j) = false := by
  intro l
  induction l with
  | nil =>
    intro _ j
    rw [List.drop_nil]
    cases w with
    | nil => exact absurd rfl hw
    | cons a as => exact cons_isPrefixOf_nil a as
  | cons c t ih =>
    intro h j
    rw [hasSub_cons_eq, Bool.or_eq_false_iff] at h
    cases j with
    | zero => simpa using h.1
    | succ j =>
      rw [show (c :: t).drop (j + 1) = t.drop j from rfl]
      exact ih h.2 j

lemma trySepAux_none (r : Str)
    (h : ∀ j, serviceLit.isPrefixOf (r.drop j) = false) :
    ∀ m, trySepAux m r = none := by
  intro m
  induction m with
  | zero =>
    have h0 := h 0
    rw [List.drop_zero] at h0
    simp only [trySepAux]
    rw [h0]
    simp
  | succ m ih =>
    simp only [trySepAux]
    rw [h (m + 1)]
    simpa using ih

lemma trySep_none (r : Str) (h : ∀ j, serviceLit.isPrefixOf (r.drop j) = false) :
    trySep r = none :=
  trySepAux_none r h _

lemma tryGroup_none (l : Str) (h : ∀ k, trySep (l.drop k) = none) :
    ∀ k, tryGroup k l = none := by
  intro k
  induction k with
  | zero => rfl
  | succ k ih =>
    simp only [tryGroup]
    rw [h (k + 1)]
    exact ih

lemma svcCore_none (l : Str) (h : hasSub serviceLit l = false) : svcCore l = none := by
  unfold svcCore
  apply tryGroup_none
  intro k
  apply trySep_none
  intro j
  rw [List.drop_drop]
  exact no_prefix_at serviceLit (by decide) l h (k + j)

lemma scanFirst_svcCore_none : ∀ l, hasSub serviceLit l = false →
    scanFirst svcCore l = none := by
  intro l
  induction l with
  | nil =>
    intro _
    rfl
  | cons c t ih =>
    intro h
    simp only [scanFirst]
    rw [svcCore_none (c :: t) h]
    refine ih ?_
    rw [hasSub_cons_eq, Bool.or_eq_false_iff] at h
    exact h.2

lemma svc_family (d : Str) (hd : ∀ c ∈ d, c ∈ digitChars) :
    extract_service_name (famA ++ (d ++ famB)) = none := by
  have hfor := hasSub_family (("for").data) rfl (by decide) (by decide) (by decide)
    (by decide) (by decide) (by decide) d hd
  have hin := hasSub_family (("in").data) rfl (by decide) (by decide) (by decide)
    (by decide) (by decide) (by decide) d hd
  have hsvc := hasSub_family (("service").data) rfl (by decide) (by decide) (by decide)
    (by decide) (by decide) (by decide) d hd
  unfold extract_service_name
  rw [scanFirst_gate_none svcP1At (("for").data) (by decide) svcP1At_gate _ hfor,
    scanFirst_gate_none svcP2At (("in").data) (by decide) svcP2At_gate _ hin,
    scanFirst_svcCore_none _ hsvc,
    scanFirst_gate_none svcP4At serviceLit (by decide) svcP4At_gate _ hsvc]

lemma level_family (d : Str) (_hd : ∀ c ∈ d, c ∈ digitChars) :
    extract_log_level (famA ++ (d ++ famB)) = some (("error").data) := by
  have hpos : hasSub (("error").data) (famA ++ (d ++ famB)) = true :=
    hasSub_append_right (("error").data) famA (d ++ famB)
      (hasSub_append_right (("error").data) d famB (by decide))
  unfold extract_log_level log_levels
  simp only [List.find?]
  rw [hpos]
  rfl

lemma takeWhile_cons_pos {p : Char → Bool} {c : Char} (h : p c = true) (l : Str) :
    (c :: l).takeWhile p = c :: l.takeWhile p := by
  rw [List.takeWhile_cons, if_pos h]

lemma takeWhile_cons_neg {p : Char → Bool} {c : Char} (h : p c = false) (l : Str) :
    (c :: l).takeWhile p = [] := by
  rw [List.takeWhile_cons]
  simp [h]

lemma takeWhile_digit_fam (d : Str) (hd : ∀ c ∈ d, c ∈ digitChars) :
    (d ++ famB).takeWhile Char.isDigit = d := by
  induction d with
  | nil => rfl
  | cons c t ih =>
    rw [List.cons_append, takeWhile_cons_pos (digit_isDigit c (hd c (by simp))),
      ih (fun c' hc' => hd c' (by simp [hc']))]

lemma matchAtoms_lit_step (w : Str) (rest : List Atom) (prev : Option Char) (l : Str)
    (h : w.isPrefixOf l = true) :
    matchAtoms (Atom.lit w :: rest) prev l =
      (matchAtoms rest (lastCh prev w) (l.drop w.length)).map
        (fun r => (w.length + r.1, r.2)) := by
  have e : matchAtoms (Atom.lit w :: rest) prev l =
      if w.isPrefixOf l = true then
        (matchAtoms rest (lastCh prev w) (l.drop w.length)).map
          (fun r => (w.length + r.1, r.2))
      else none := rfl
  rw [e, if_pos h]

lemma matchAtoms_cls_step (cap : Bool) (p : Char → Bool) (rest : List Atom)
    (prev : Option Char) (l run : Str) (hrun : l.takeWhile p = run)
    (hne : run.length ≠ 0) :
    matchAtoms (Atom.cls cap p :: rest) prev l =
      (matchAtoms rest (lastCh prev run) (l.drop run.length)).map
        (fun r => (run.length + r.1, if cap then run :: r.2 else r.2)) := by
  have e : matchAtoms (Atom.cls cap p :: rest) prev l =
      if (l.takeWhile p).length = 0 then none
      else
        (matchAtoms rest (lastCh prev (l.takeWhile p)) (l.drop (l.takeWhile p).length)).map
          (fun r => ((l.takeWhile p).length + r.1,
            if cap then (l.takeWhile p) :: r.2 else r.2)) := rfl
  rw [e, hrun, if_neg hne]

lemma size_family (d : Str) (hne : d ≠ []) (hd : ∀ c ∈ d, c ∈ digitChars) :
    extract_size (famA ++ (d ++ famB)) = some (digitsToNat d) := by
  have hshow := hasSub_family (("show").data) rfl (by decide) (by decide) (by decide)
    (by decide) (by decide) (by decide) d hd
  have hlimit := hasSub_family (("limit").data) rfl (by decide) (by decide) (by decide)
    (by decide) (by decide) (by decide) d hd
  have hsp : ((' ' :: (d ++ famB)).takeWhile pyIsSpace) = [' '] := by
    cases d with
    | nil => exact absurd rfl hne
    | cons c t =>
      rw [List.cons_append, takeWhile_cons_pos (show pyIsSpace ' ' = true from rfl),
        takeWhile_cons_neg (digit_not_space c (hd c (by simp)))]
  have hdlen : d.length ≠ 0 := by
    intro h
    exact hne (List.length_eq_zero.mp h)
  have htop : matchAtoms topPat none ('t' :: 'o' :: 'p' :: ' ' :: (d ++ famB)) =
      some (3 + (1 + (d.length + 0)), [d]) := by
    rw [show topPat = Atom.lit (("top").data) ::
      [Atom.cls false pyIsSpace, Atom.cls true Char.isDigit] from rfl]
    rw [matchAtoms_lit_step (("top").data)
      [Atom.cls false pyIsSpace, Atom.cls true Char.isDigit] none
      ('t' :: 'o' :: 'p' :: ' ' :: (d ++ famB)) rfl]
    rw [show ('t' :: 'o' :: 'p' :: ' ' :: (d ++ famB)).drop ((("top").data).length) =
      ' ' :: (d ++ famB) from rfl]
    rw [matchAtoms_cls_step false pyIsSpace [Atom.cls true Char.isDigit]
      (lastCh none (("top").data)) (' ' :: (d ++ famB)) [' '] hsp (by decide)]
    rw [show (' ' :: (d ++ famB)).drop (([' '] : Str).length) = d ++ famB from rfl]
    rw [matchAtoms_cls_step true Char.isDigit []
      (lastCh (lastCh none (("top").data)) [' ']) (d ++ famB) d
      (takeWhile_digit_fam d hd) hdlen]
    rw [List.drop_left]
    rfl
  have hsearch : searchFrom topPat none (famA ++ (d ++ famB)) =
      some (3 + (1 + (d.length + 0)), [d]) := by
    rw [show famA ++ (d ++ famB) = 't' :: 'o' :: 'p' :: ' ' :: (d ++ famB) from rfl,
      searchFrom_cons_eq, htop]
  unfold extract_size
  rw [searchFrom_lit_none showPat (("show").data) _ rfl _ none hshow,
    searchFrom_lit_none limitPat (("limit").data) _ rfl _ none hlimit, hsearch]
  rfl

lemma pyStrip_id (l : Str) (c₁ : Char) (t₁ : Str) (h₁ : l = c₁ :: t₁)
    (hc₁ : pyIsSpace c₁ = false) (c₂ : Char) (t₂ : Str) (h₂ : l.reverse = c₂ :: t₂)
    (hc₂ : pyIsSpace c₂ = false) : pyStrip l = l := by
  unfold pyStrip
  rw [h₁, List.dropWhile_cons, if_neg (by simp [hc₁]), ← h₁, h₂, List.dropWhile_cons,
    if_neg (by simp [hc₂]), ← h₂, List.reverse_reverse]

lemma fam_reverse (d : Str) :
    (famA ++ (d ++ famB)).reverse =
      's' :: (['r', 'o', 'r', 'r', 'e', ' '] ++ (d.reverse ++ famA.reverse)) := by
  rw [List.reverse_append, List.reverse_append, List.append_assoc]
  rfl

lemma normalize_family (N : Nat) :
    normalizeQ (("top ") ++ toString N ++ (" errors")) =
      famA ++ (Nat.toDigits 10 N ++ famB) := by
  obtain ⟨_, hmem, _⟩ := toDigits_spec N
  have hdata : (("top ") ++ toString N ++ (" errors")).data =
      famA ++ (Nat.toDigits 10 N ++ famB) := by
    rw [String.data_append, String.data_append, List.append_assoc]
    rfl
  unfold normalizeQ
  rw [hdata, map_lower_family (Nat.toDigits 10 N) hmem]
  exact pyStrip_id _ 't' _ rfl rfl 's' _ (fam_reverse (Nat.toDigits 10 N)) rfl

/-- C7: size extraction tries `show <int> results?`, `limit <int>`,
`top <int>`, `first <int>` in that order with the first match overriding the
default; for every positive integer N the utterance `top N errors` yields a
search output whose size field is exactly N, and an utterance with no size
pattern yields the default 50. -/
theorem C7_size_extraction :
    (∀ N : Nat, 0 < N →
      ∃ must, parse_to_dict (("top ") ++ toString N ++ (" errors")) =
        Except.ok (PResult.search N must)) ∧
    (∀ (s : String) (tf : Option Clause),
      is_unsupported_query (normalizeQ s) = false →
      is_cluster_query (normalizeQ s) = false →
      is_cat_query (normalizeQ s) = false →
      build_time_range (normalizeQ s) = Except.ok tf →
      extract_size (normalizeQ s) = none →
      ∃ must, parse_to_dict s = Except.ok (PResult.search 50 must)) ∧
    extract_size (("show 7 results limit 9 top 3").data) = some 7 ∧
    extract_size (("limit 9 top 3 first 4").data) = some 9 ∧
    extract_size (("top 3 first 4").data) = some 3 ∧
    extract_size (("first 4").data) = some 4 ∧
    extract_size (("nothing here").data) = none := by
  refine ⟨?_, ?_, rfl, rfl, rfl, rfl, rfl⟩
  · intro N hN
    obtain ⟨hne, hmem, hval⟩ := toDigits_spec N
    have hfam := normalize_family N
    have h1 : is_unsupported_query (normalizeQ (("top ") ++ toString N ++ (" errors"))) = false := by
      rw [hfam]
      exact unsup_family _ hmem
    have h2 : is_cluster_query (normalizeQ (("top ") ++ toString N ++ (" errors"))) = false := by
      rw [hfam]
      exact cluster_family _ hmem
    have h3 : is_cat_query (normalizeQ (("top ") ++ toString N ++ (" errors"))) = false := by
      rw [hfam]
      exact cat_family _ hmem
    have h4 : build_time_range (normalizeQ (("top ") ++ toString N ++ (" errors"))) =
        Except.ok none := by
      rw [hfam]
      exact btr_family _ hmem
    have hsz : extract_size (normalizeQ (("top ") ++ toString N ++ (" errors"))) =
        some N := by
      rw [hfam, size_family _ hne hmem, hval]
    have heq := parse_to_dict_search_eq (("top ") ++ toString N ++ (" errors")) h1 h2 h3 h4
    rw [hsz] at heq
    refine ⟨mustOf (normalizeQ (("top ") ++ toString N ++ (" errors"))) none, ?_⟩
    rw [heq, show resolveSize (some N) = if N ≠ 0 then N else 50 from rfl,
      if_pos (Nat.pos_iff_ne_zero.mp hN)]
  · intro s tf h1 h2 h3 h4 h5
    have heq := parse_to_dict_search_eq s h1 h2 h3 h4
    rw [h5] at heq
    exact ⟨mustOf (normalizeQ s) tf, heq⟩

/-- C7 witness: the round trip at N = 100 and the default branch at a
size-free utterance. -/
theorem C7_witness :
    (∃ must, parse_to_dict (("top ") ++ toString 100 ++ (" errors")) =
      Except.ok (PResult.search 100 must)) ∧
    (∃ must, parse_to_dict ("hello world") = Except.ok (PResult.search 50 must)) :=
  ⟨C7_size_extraction.1 100 (by decide),
    C7_size_extraction.2.1 ("hello world") none rfl rfl rfl rfl rfl⟩
